import Mathlib

/-!
Verification of the OpenStack lifecycle orchestrator
(`src/virtualmachine/openstack/vm.go` of arthurpro/libretto).

The Go file is shallowly embedded below.  Remote provider operations
(`getComputeClient`, `flavors.IDFromName`, `servers.Create`, `waitUntil`,
`floatingips.*`, `deleteVM`, `getServer`, `networks.Get`, ...) are helpers
whose bodies live outside this file; they are modelled as an abstract
environment `Env` that fixes, for every such call, its outcome (a result or
a Go error message).  The orchestration code itself — the branching,
error-message construction, descriptor mutation and the order of provider
calls — is translated verbatim from `vm.go`.  Every provider call a run
issues is collected into a trace of `Call` values so that properties such as
"no instance-create call is issued" become statements about the trace.
-/

namespace OS

/-- A Go `error` value: `none` is `nil`, `some s` an error with message `s`. -/
abbrev GoErr := Option String

/-- The struct `floatingips.FloatingIP`, reduced to the two fields `vm.go` reads:
the address string `ip` and the provider identifier `id`. -/
structure FloatingIP where
  ip : String
  id : String
deriving DecidableEq, Repr

/-- The `Volume` struct of `vm.go` (fields the orchestrator reads). -/
structure Volume where
  id : String := ""
  device : String := ""
  name : String := ""
  size : Int := 0
  vtype : String := ""
deriving DecidableEq, Repr

/-- The `VM` descriptor of `vm.go`, reduced to the fields the lifecycle
operations read or write.  `computeClient` tracks whether the provider
session handle is non-nil (`vm.computeClient` in the source). -/
structure VM where
  flavorName : String := ""
  imageID : String := ""
  imageMetadataName : String := ""
  instanceID : String := ""
  name : String := ""
  networks : List String := []
  floatingIPPool : String := ""
  floatingIP : Option FloatingIP := none
  securityGroup : String := ""
  volume : Volume := {}
  computeClient : Bool := false
deriving DecidableEq, Repr

/-- One address entry of `server.Addresses`: the `OS-EXT-IPS:type` flag and
the `addr` string.  (The dynamic JSON shape of `vm.go` is assumed well
typed at the level of single address blocks.) -/
structure Address where
  ipType : String
  addr : String
deriving DecidableEq, Repr

/-- The struct `servers.Server`, reduced to the fields `vm.go` reads: `ID`, `Status`
and the `Addresses` map (an association list keyed by network name; a
missing key reproduces Go's nil-interface type-assertion panic). -/
structure Server where
  id : String := ""
  status : String := ""
  addresses : List (String × List Address) := []
deriving DecidableEq, Repr

/-- The struct `networks.Network`, reduced to the `Name` field `vm.go` reads. -/
structure Network where
  name : String
deriving DecidableEq, Repr

/-- Trace entry: one remote provider call issued by the orchestrator. -/
inductive Call where
  | resolveFlavor (name : String)
  | findImage (name : String)
  | uploadImage
  | createServer
  | waitRunning
  | createFip (pool : String)
  | associateFip (instanceID ip : String)
  | deleteFip (fid : String)
  | disassociateFip (instanceID ip : String)
  | deleteServer (sid : String)
  | detachDeleteVolume (vid : String)
  | attachVolume
  | waitSSH
  | waitHalted
  | queryServer
  | stopServer (sid : String)
deriving DecidableEq, Repr

/-- The environment: the outcome of every remote helper the orchestrator
calls.  Helpers whose bodies are outside `vm.go` (`getComputeClient`,
`waitUntil`, `deleteVM`, `getServer`, ...) are oracles here; the fields
mirror their Go signatures (`GoErr` for error-only results, `Except` for
value-or-error results, pairs for Go's `(value, error)` returns). -/
structure Env where
  getComputeClient : GoErr := none
  resolveFlavor : String → Except String String := fun _ => .ok "flavor-1"
  findImage : String → Except String String := fun _ => .ok "image-1"
  createImage : Except String String := .ok "image-1"
  createServer : Except String String := .ok "abc-123"
  waitRunning : GoErr := none
  createFip : String → Except String FloatingIP := fun _ => .ok ⟨"1.2.3.4", "fip-1"⟩
  associateFip : String → String → GoErr := fun _ _ => none
  deleteFip : String → GoErr := fun _ => none
  disassociateFip : String → String → GoErr := fun _ _ => none
  deleteServer : String → GoErr := fun _ => none
  detachDeleteVolume : String → GoErr := fun _ => none
  attachVolume : GoErr := none
  waitSSH : GoErr := none
  waitHalted : GoErr := none
  stopServer : String → GoErr := fun _ => none
  getServer : Option Server × GoErr := (some {}, none)
  getNetworkClient : Option Unit × GoErr := (some (), none)
  networkGet : String → Except String Network := fun _ => .ok ⟨"net-1"⟩
  parseIP : String → Option String := fun s => some s

/-- Error `ErrNoFlavor` of `vm.go`. -/
def errNoFlavor : String := "Requested flavor is not found"

/-- Error `ErrNoInstanceID` of `vm.go`. -/
def errNoInstanceID : String := "Missing instance ID"

/-- Modelled from the spec: `lvm.ErrVMInfoFailed` of the `virtualmachine`
package (not under `src/`): the info-failure error GetState returns when the
provider reports no instance. -/
def errVMInfoFailed : String := "failed to fetch info about the VM"

/-- Modelled from the spec: the normalized running state of the
`virtualmachine` package (`lvm.VMRunning`, not under `src/`). -/
def VMRunning : String := "running"

/-- Modelled from the spec: the normalized halted state (`lvm.VMHalted`). -/
def VMHalted : String := "halted"

/-- Modelled from the spec: the normalized error state (`lvm.VMError`). -/
def VMError : String := "error"

/-- Modelled from the spec: the normalized unknown state (`lvm.VMUnknown`). -/
def VMUnknown : String := "unknown"

/-- What `fmt`'s `%s` verb prints for an `error` operand: the message, or
the `%!s(<nil>)` marker when the operand is a nil error. -/
def goErrStr : GoErr → String
  | none => "%!s(<nil>)"
  | some s => s

/-- The error-aggregation loop at the end of `Destroy` (vm.go:466-476):
first collected error verbatim, every further one appended after `", "`;
`nil` when no error was collected. -/
def combineErrors : List String → GoErr
  | [] => none
  | e :: rest => some (rest.foldl (fun acc e2 => acc ++ ", " ++ e2) e)

/-- Number of delete-instance calls for server `sid` in a trace. -/
def countDeleteServer (sid : String) : List Call → Nat
  | [] => 0
  | .deleteServer s :: t => (if s = sid then 1 else 0) + countDeleteServer sid t
  | _ :: t => countDeleteServer sid t

/-- Operation `Destroy` (vm.go:425-480).  Returns the mutated descriptor, the Go
error and the trace of provider calls.  Faithful points: the floating-IP
delete happens only in the `else` branch of the disassociate error check;
only `computeClient` is cleared at the end; the missing-instance-ID and
missing-client early returns issue no provider call and mutate nothing. -/
def Destroy (env : Env) (vm : VM) : VM × GoErr × List Call :=
  if vm.instanceID = "" then
    (vm, some errNoInstanceID, [])
  else
    match env.getComputeClient with
    | some e => (vm, some ("compute client is not set for the VM, " ++ e), [])
    | none =>
      -- Delete the floating IP first before destroying the VM
      let fipStage : List String × List Call :=
        match vm.floatingIP with
        | none => ([], [])
        | some fip =>
          match env.disassociateFip vm.instanceID fip.ip with
          | some e =>
            (["unable to disassociate floating ip from instance: " ++ e],
             [.disassociateFip vm.instanceID fip.ip])
          | none =>
            match env.deleteFip fip.id with
            | some e =>
              (["unable to delete floating ip: " ++ e],
               [.disassociateFip vm.instanceID fip.ip, .deleteFip fip.id])
            | none =>
              ([], [.disassociateFip vm.instanceID fip.ip, .deleteFip fip.id])
      -- De-attach and delete the volume, if there is an attached one
      let volStage : List String × List Call :=
        if vm.volume.id = "" then ([], [])
        else
          match env.detachDeleteVolume vm.volume.id with
          | some e => ([e], [.detachDeleteVolume vm.volume.id])
          | none => ([], [.detachDeleteVolume vm.volume.id])
      -- Delete the instance
      let delStage : List String × List Call :=
        match env.deleteServer vm.instanceID with
        | some e => ([e], [.deleteServer vm.instanceID])
        | none => ([], [.deleteServer vm.instanceID])
      ({ vm with computeClient := false },
       combineErrors (fipStage.1 ++ volStage.1 ++ delStage.1),
       fipStage.2 ++ volStage.2 ++ delStage.2)

/-- The image-resolution block of `Provision` (vm.go:284-302): when no
explicit image identifier is set, search by name; on empty search result,
upload; persist the resolved identifier on the descriptor. -/
def resolveImage (env : Env) (vm : VM) : Except String String × VM × List Call :=
  if vm.imageID = "" then
    match env.findImage vm.imageMetadataName with
    | .error e =>
      (.error ("error on searching image: " ++ e), vm, [.findImage vm.imageMetadataName])
    | .ok found =>
      if found = "" then
        match env.createImage with
        | .error e => (.error e, vm, [.findImage vm.imageMetadataName, .uploadImage])
        | .ok made =>
          (.ok made, { vm with imageID := made },
           [.findImage vm.imageMetadataName, .uploadImage])
      else
        (.ok found, { vm with imageID := found }, [.findImage vm.imageMetadataName])
  else
    (.ok vm.imageID, vm, [])

/-- The `cleanup` closure of `Provision` (vm.go:330-336): run `Destroy` on
the current descriptor; when the teardown itself errors, return the
original cause followed by the teardown error, else the cause alone. -/
def cleanup (env : Env) (vm : VM) (e : String) (tr : List Call) : VM × GoErr × List Call :=
  let d := Destroy env vm
  (d.1,
   some (match d.2.1 with | none => e | some ed => e ++ " " ++ ed),
   tr ++ d.2.2)

/-- Operation `Provision` (vm.go:272-383).  Returns the mutated descriptor, the Go
error and the trace of provider calls.  Faithful points: `ErrNoFlavor` on
any flavor-resolution failure before anything else is attempted; the
instance identifier is recorded immediately after `servers.Create`
acknowledges, before the running-state wait; every failure after creation
goes through `cleanup`; on association failure the just-allocated floating
IP is deleted first (its error folded in with `%s` formatting, nil printed
as the Go nil marker) and `vm.FloatingIP` is never assigned. -/
def Provision (env : Env) (vm : VM) : VM × GoErr × List Call :=
  match env.getComputeClient with
  | some e => (vm, some ("compute client is not set for the VM: " ++ e), [])
  | none =>
    match env.resolveFlavor vm.flavorName with
    | .error _ => (vm, some errNoFlavor, [.resolveFlavor vm.flavorName])
    | .ok _flavorID =>
      match resolveImage env vm with
      | (.error e, vm2, trI) => (vm2, some e, .resolveFlavor vm.flavorName :: trI)
      | (.ok _imageID, vm2, trI) =>
        let tr0 := .resolveFlavor vm.flavorName :: trI
        match env.createServer with
        | .error e => (vm2, some e, tr0 ++ [.createServer])
        | .ok sid =>
          -- Set the server ID to VM ID
          let vm3 := { vm2 with instanceID := sid }
          let tr1 := tr0 ++ [.createServer]
          -- Wait until VM runs
          match env.waitRunning with
          | some e => cleanup env vm3 e (tr1 ++ [.waitRunning])
          | none =>
            let tr2 := tr1 ++ [.waitRunning]
            if vm3.floatingIPPool = "" then
              cleanup env vm3 "empty floating IP pool" tr2
            else
              match env.createFip vm3.floatingIPPool with
              | .error e =>
                cleanup env vm3 ("unable to create a floating ip: " ++ e)
                  (tr2 ++ [.createFip vm3.floatingIPPool])
              | .ok fip =>
                let tr3 := tr2 ++ [.createFip vm3.floatingIPPool]
                match env.associateFip sid fip.ip with
                | some e =>
                  let efd := env.deleteFip fip.id
                  cleanup env vm3
                    ("unable to associate a floating ip: " ++
                      (e ++ " " ++ goErrStr efd))
                    (tr3 ++ [.associateFip sid fip.ip, .deleteFip fip.id])
                | none =>
                  let vm4 := { vm3 with floatingIP := some fip }
                  let tr4 := tr3 ++ [.associateFip sid fip.ip]
                  match env.waitSSH with
                  | some e => cleanup env vm4 e (tr4 ++ [.waitSSH])
                  | none =>
                    let tr5 := tr4 ++ [.waitSSH]
                    if vm4.volume.size > 0 then
                      match env.attachVolume with
                      | some e => cleanup env vm4 e (tr5 ++ [.attachVolume])
                      | none => (vm4, none, tr5 ++ [.attachVolume])
                    else
                      (vm4, none, tr5)

/-- Operation `GetState` (vm.go:497-516): error from the server query is propagated;
a nil server is the info-failure; else the provider status string is mapped
to the normalized state, anything unmapped to unknown. -/
def GetState (env : Env) : Except String String :=
  match env.getServer with
  | (_, some e) => .error e
  | (none, none) => .error errVMInfoFailed
  | (some s, none) =>
    if s.status = "ACTIVE" then .ok VMRunning
    else if s.status = "SHUTOFF" then .ok VMHalted
    else if s.status = "ERROR" then .ok VMError
    else .ok VMUnknown

/-- Operation `Halt` (vm.go:519-548).  Returns the Go error and the trace of
provider calls.  The state precondition is checked through `GetState`,
which issues a server query (`getServer`); the stop call is only issued
when the state is the normalized running state. -/
def Halt (env : Env) (vm : VM) : GoErr × List Call :=
  if vm.instanceID = "" then
    (some errNoInstanceID, [])
  else
    match env.getComputeClient with
    | some e => (some ("compute client is not set for the VM, " ++ e), [])
    | none =>
      match GetState env with
      | .error e => (some e, [.queryServer])
      | .ok st =>
        if st ≠ VMRunning then
          (some "the VM is not active, so cannot be halted", [.queryServer])
        else
          match env.stopServer vm.instanceID with
          | some e =>
            (some ("failed to stop the instance: " ++ e),
             [.queryServer, .stopServer vm.instanceID])
          | none =>
            match env.waitHalted with
            | some e => (some e, [.queryServer, .stopServer vm.instanceID, .waitHalted])
            | none => (none, [.queryServer, .stopServer vm.instanceID, .waitHalted])

/-- Embedding of `server.Addresses[network.Name]`: association-list lookup; a missing
key is Go's nil interface value (whose slice type assertion panics). -/
def lookupAddrs (s : Server) (name : String) : Option (List Address) :=
  (s.addresses.find? (fun p => p.1 = name)).map (fun p => p.2)

/-- Body of the per-address loop of `GetIPs` (vm.go:408-418): a "floating"
address overwrites slot 0 with its parsed IP, a "fixed" one slot 1. -/
def procAddr (p : String → Option String) (acc : Option String × Option String)
    (a : Address) : Option String × Option String :=
  let acc1 := if a.ipType = "floating" then (p a.addr, acc.2) else acc
  if a.ipType = "fixed" then (acc1.1, p a.addr) else acc1

/-- Fold of `procAddr` over one network's address list. -/
def procAddrs (p : String → Option String) (acc : Option String × Option String)
    (addrs : List Address) : Option String × Option String :=
  addrs.foldl (procAddr p) acc

/-- Outcome of the network loop of `GetIPs`: a panic (missing address key),
an early `(nil, err)` return (network lookup error), or the final slots. -/
inductive LoopRes where
  | panic : LoopRes
  | fail (e : String) : LoopRes
  | ok (s0 s1 : Option String) : LoopRes
deriving DecidableEq, Repr

/-- The network loop of `GetIPs` (vm.go:401-419). -/
def getIPsLoop (env : Env) (s : Server) :
    Option String × Option String → List String → LoopRes
  | acc, [] => .ok acc.1 acc.2
  | acc, nid :: rest =>
    match env.networkGet nid with
    | .error e => .fail e
    | .ok nw =>
      match lookupAddrs s nw.name with
      | none => .panic
      | some addrs => getIPsLoop env s (procAddrs env.parseIP acc addrs) rest

/-- Outcome of `GetIPs`: a runtime panic, or a Go return of the
(possibly nil) slice of (possibly nil) parsed IPs and the error. -/
inductive IPsOutcome where
  | panic : IPsOutcome
  | ret (ips : Option (List (Option String))) (e : GoErr) : IPsOutcome
deriving DecidableEq, Repr

/-- Operation `GetIPs` (vm.go:388-422).  `return nil, err` when the server query
yields a nil server or an error — so also `(nil, nil)`; likewise for the
network client; else a slice of exactly two slots filled by the loop. -/
def GetIPs (env : Env) (vm : VM) : IPsOutcome :=
  match env.getServer with
  | (none, e) => .ret none e
  | (some _, some e) => .ret none (some e)
  | (some s, none) =>
    match env.getNetworkClient with
    | (none, e) => .ret none e
    | (some _, some e) => .ret none (some e)
    | (some _, none) =>
      match getIPsLoop env s (none, none) vm.networks with
      | .panic => .panic
      | .fail e => .ret none (some e)
      | .ok s0 s1 => .ret (some [s0, s1]) none

/-- A JSON value, for the serialization model of `MarshalJSON`. -/
inductive Json where
  | null : Json
  | str (s : String) : Json
  | arr (elems : List Json) : Json
  | obj (fields : List (String × Json)) : Json

/-- Lookup of a field in a JSON object's field list (`m["FloatingIP"]`). -/
def jGet (fields : List (String × Json)) (k : String) : Option Json :=
  (fields.find? (fun p => p.1 = k)).map (fun p => p.2)

/-- Assignment `m[k] = v` on a JSON object's field list: overwrite or append. -/
def jSet (fields : List (String × Json)) (k : String) (v : Json) :
    List (String × Json) :=
  if (fields.find? (fun p => p.1 = k)).isSome then
    fields.map (fun p => if p.1 = k then (k, v) else p)
  else
    fields ++ [(k, v)]

/-- Embedding of `json.Marshal` of the `vmAlias` value (vm.go:217-243): the fields of
the descriptor, with `FloatingIP` serialized as JSON null when the pointer
is nil and as an object otherwise.  The floating-IP object deliberately
lacks an `id` field — the premise of `MarshalJSON`'s re-insertion step
(provider-side fields not read by `vm.go` are elided). -/
def marshalAlias (vm : VM) : Json :=
  .obj
    [("FlavorName", .str vm.flavorName),
     ("ImageID", .str vm.imageID),
     ("InstanceID", .str vm.instanceID),
     ("Name", .str vm.name),
     ("Networks", .arr (vm.networks.map .str)),
     ("FloatingIPPool", .str vm.floatingIPPool),
     ("FloatingIP",
      match vm.floatingIP with
      | none => .null
      | some f => .obj [("ip", .str f.ip)]),
     ("SecurityGroup", .str vm.securityGroup)]

/-- Outcome of `MarshalJSON`: the serialized value, or a runtime panic. -/
inductive MarshalOutcome where
  | panic : MarshalOutcome
  | ok (j : Json) : MarshalOutcome

/-- Operation `MarshalJSON` (vm.go:182-262): marshal the alias, unmarshal into a
dynamic value (the identity here), assert the `FloatingIP` entry is an
object — Go panics when it is JSON null — then insert the floating-IP
provider identifier under `id` (a nil-pointer dereference, hence a panic,
were the record absent) and re-serialize. -/
def MarshalJSON (vm : VM) : MarshalOutcome :=
  match marshalAlias vm with
  | .obj m =>
    match jGet m "FloatingIP" with
    | some (.obj fipFields) =>
      match vm.floatingIP with
      | some f =>
        .ok (.obj (jSet m "FloatingIP" (.obj (jSet fipFields "id" (.str f.id)))))
      | none => .panic
    | _ => .panic
  | _ => .panic

/-- A fully acquired descriptor (instance, floating IP, volume, handle). -/
def vmAcquired : VM :=
  { instanceID := "abc-123"
    flavorName := "m1.small"
    floatingIP := some ⟨"1.2.3.4", "fip-1"⟩
    volume := { id := "vol-1", size := 10 }
    computeClient := true }

/-- A configured, not-yet-provisioned descriptor with an explicit image. -/
def vmConfigured : VM :=
  { flavorName := "m1.small"
    imageID := "img-1"
    floatingIPPool := "pool-1" }

/-- Environment in which the disassociate call fails and the floating-IP
delete call would also fail were it issued. -/
def envDisassocFails : Env :=
  { disassociateFip := fun _ _ => some "disassoc boom"
    deleteFip := fun _ => some "delete boom" }

/-- Environment in which flavor resolution fails. -/
def envNoFlavor : Env :=
  { resolveFlavor := fun _ => .error "flavor lookup failed" }

/-- Environment in which the provider reports the instance shut off. -/
def envShutOff : Env :=
  { getServer := (some { id := "abc-123", status := "SHUTOFF" }, none) }

/-- Environment in which the running-state wait and the instance delete
both fail. -/
def envWaitAndDeleteFail : Env :=
  { waitRunning := some "wait boom"
    deleteServer := fun _ => some "delete boom" }

/-- Environment in which floating-IP association fails. -/
def envAssocFails : Env :=
  { associateFip := fun _ _ => some "assoc boom" }

/-- Environment in which the server query returns a nil server and a nil
error. -/
def envNilServer : Env := { getServer := (none, none) }

/-- Lemma: `countDeleteServer` is additive over trace concatenation. -/
theorem countDeleteServer_append (sid : String) (l1 l2 : List Call) :
    countDeleteServer sid (l1 ++ l2) =
      countDeleteServer sid l1 + countDeleteServer sid l2 := by
  induction l1 with
  | nil => simp [countDeleteServer]
  | cons a t ih => cases a <;> simp [countDeleteServer, ih, Nat.add_assoc]

/-- Lemma: image resolution never mutates the floating-IP record. -/
theorem resolveImage_preserves_floatingIP (env : Env) (vm : VM) :
    (resolveImage env vm).2.1.floatingIP = vm.floatingIP := by
  unfold resolveImage
  repeat' split
  all_goals rfl

/-- Lemma: image resolution issues no delete-instance call. -/
theorem resolveImage_no_deleteServer (env : Env) (vm : VM) (sid : String) :
    countDeleteServer sid (resolveImage env vm).2.2 = 0 := by
  unfold resolveImage
  repeat' split
  all_goals simp [countDeleteServer]

/-- Lemma: when `Destroy` runs its stages, the resulting descriptor is the
input with only the provider handle cleared. -/
theorem destroy_fst (env : Env) (vm : VM)
    (h : vm.instanceID ≠ "") (hc : env.getComputeClient = none) :
    (Destroy env vm).1 = { vm with computeClient := false } := by
  simp [Destroy, h, hc]

/-- Lemma: a `Destroy` run without a floating-IP record issues exactly one
delete-instance call for its instance. -/
theorem destroy_one_deleteServer (env : Env) (vm : VM)
    (h : vm.instanceID ≠ "") (hc : env.getComputeClient = none)
    (hf : vm.floatingIP = none) :
    countDeleteServer vm.instanceID (Destroy env vm).2.2 = 1 := by
  rcases hvol : decEq vm.volume.id "" with hv | hv <;>
    rcases hdv : env.detachDeleteVolume vm.volume.id with _ | e3 <;>
    rcases hds : env.deleteServer vm.instanceID with _ | e4 <;>
    simp_all [Destroy, countDeleteServer]

/-- C6: on a descriptor whose instance identifier is empty, `Destroy`
returns the missing-identifier error, issues no provider call, leaves the
descriptor untouched, and a second call behaves identically. -/
theorem destroy_missing_instance_id_idempotent (env : Env) (vm : VM)
    (h : vm.instanceID = "") :
    Destroy env vm = (vm, some errNoInstanceID, []) ∧
    Destroy env (Destroy env vm).1 = (vm, some errNoInstanceID, []) := by
  constructor <;> simp [Destroy, h]

/-- Witness for the C6 theorem at the empty descriptor. -/
theorem destroy_missing_instance_id_idempotent_witness :
    VM.instanceID {} = "" ∧
    (Destroy {} {} = ({}, some errNoInstanceID, []) ∧
     Destroy {} (Destroy {} {}).1 = ({}, some errNoInstanceID, [])) :=
  ⟨rfl, destroy_missing_instance_id_idempotent {} {} rfl⟩

/-- C5 counterexample: after a fully successful `Destroy` of an acquired
descriptor, the instance identifier, floating-IP record and volume record
are all still present — the acquired state is not cleared; only the
provider handle is. -/
theorem destroy_leaves_acquired_state_cex :
    (Destroy {} vmAcquired).2.1 = none ∧
    (Destroy {} vmAcquired).1.instanceID = "abc-123" ∧
    (Destroy {} vmAcquired).1.floatingIP = some ⟨"1.2.3.4", "fip-1"⟩ ∧
    (Destroy {} vmAcquired).1.volume.id = "vol-1" ∧
    (Destroy {} vmAcquired).1.computeClient = false := by
  decide

/-- C5 amended: when `Destroy` runs its teardown stages (instance
identifier present, compute client obtained), the only descriptor mutation
is clearing the provider session handle; instance identifier, floating-IP
record and volume record remain exactly as they were. -/
theorem destroy_clears_only_client_handle (env : Env) (vm : VM)
    (h : vm.instanceID ≠ "") (hc : env.getComputeClient = none) :
    (Destroy env vm).1 = { vm with computeClient := false } := by
  simp [Destroy, h, hc]

/-- Witness for the amended C5 theorem at an acquired descriptor. -/
theorem destroy_clears_only_client_handle_witness :
    vmAcquired.instanceID ≠ "" ∧ Env.getComputeClient {} = none ∧
    (Destroy {} vmAcquired).1 = { vmAcquired with computeClient := false } :=
  ⟨by decide, rfl, destroy_clears_only_client_handle {} vmAcquired (by decide) rfl⟩

/-- C3 counterexample: the floating-IP stage of `Destroy` does NOT attempt
the delete call when the disassociate call fails — the trace has no
delete-floating-ip entry and the returned error reports only the
disassociate failure (the later stages still run). -/
theorem destroy_fip_delete_skipped_on_disassoc_failure_cex :
    Call.deleteFip "fip-1" ∉ (Destroy envDisassocFails vmAcquired).2.2 ∧
    Call.disassociateFip "abc-123" "1.2.3.4" ∈ (Destroy envDisassocFails vmAcquired).2.2 ∧
    (Destroy envDisassocFails vmAcquired).2.1 =
      some "unable to disassociate floating ip from instance: disassoc boom" := by
  decide

/-- Conjunction proved for the amended C3: on a descriptor with an instance
identifier and a floating-IP record, the trace of `Destroy` is exactly the
floating-IP stage (the disassociate, followed by the delete exactly when
the disassociate succeeded), then the volume stage (attempted whenever a
volume record is present, regardless of any floating-IP stage failure),
then the instance delete (always attempted); the returned error is exactly
the concatenation of every collected stage failure (the disassociate
failure — or, when the disassociate succeeded, any floating-IP delete
failure — then any volume-stage failure, then any instance-delete failure),
nil when no stage failed.  The remaining conjuncts restate the headline
consequences: the floating-IP delete is attempted exactly when the
disassociate succeeded, the volume and instance-delete stages run even
after earlier failures, and the error is nil exactly when every attempted
stage succeeded. -/
def DestroyStageSpec (env : Env) (vm : VM) (fip : FloatingIP) : Prop :=
  (Destroy env vm).2.2 =
    (Call.disassociateFip vm.instanceID fip.ip ::
      (match env.disassociateFip vm.instanceID fip.ip with
       | some _ => []
       | none => [Call.deleteFip fip.id])) ++
    (if vm.volume.id = "" then [] else [Call.detachDeleteVolume vm.volume.id]) ++
    [Call.deleteServer vm.instanceID] ∧
  (Destroy env vm).2.1 =
    combineErrors
      ((match env.disassociateFip vm.instanceID fip.ip with
        | some e => ["unable to disassociate floating ip from instance: " ++ e]
        | none =>
          match env.deleteFip fip.id with
          | some e => ["unable to delete floating ip: " ++ e]
          | none => []) ++
       (if vm.volume.id = "" then []
        else
          match env.detachDeleteVolume vm.volume.id with
          | some e => [e]
          | none => []) ++
       (match env.deleteServer vm.instanceID with
        | some e => [e]
        | none => [])) ∧
  Call.disassociateFip vm.instanceID fip.ip ∈ (Destroy env vm).2.2 ∧
  (Call.deleteFip fip.id ∈ (Destroy env vm).2.2 ↔
    env.disassociateFip vm.instanceID fip.ip = none) ∧
  (vm.volume.id ≠ "" → Call.detachDeleteVolume vm.volume.id ∈ (Destroy env vm).2.2) ∧
  Call.deleteServer vm.instanceID ∈ (Destroy env vm).2.2 ∧
  ((Destroy env vm).2.1 = none ↔
    (env.disassociateFip vm.instanceID fip.ip = none ∧
     env.deleteFip fip.id = none ∧
     (vm.volume.id = "" ∨ env.detachDeleteVolume vm.volume.id = none) ∧
     env.deleteServer vm.instanceID = none))

/-- C3 amended: stage-level collection holds (every stage of `Destroy` is
attempted regardless of earlier stage failures — the volume stage whenever
a volume record is present and the instance delete always — and the
returned error is the single concatenation of all collected failures, nil
if none), but within the floating-IP stage the delete is attempted only
when the disassociate succeeded. -/
theorem destroy_stage_collection_amended (env : Env) (vm : VM) (fip : FloatingIP)
    (h : vm.instanceID ≠ "") (hc : env.getComputeClient = none)
    (hf : vm.floatingIP = some fip) :
    DestroyStageSpec env vm fip := by
  rcases hd : env.disassociateFip vm.instanceID fip.ip with _ | e <;>
    rcases hdf : env.deleteFip fip.id with _ | e2 <;>
    rcases hvol : decEq vm.volume.id "" with hv | hv <;>
    rcases hdv : env.detachDeleteVolume vm.volume.id with _ | e3 <;>
    rcases hds : env.deleteServer vm.instanceID with _ | e4 <;>
    simp_all [DestroyStageSpec, Destroy, combineErrors]

/-- Witness for the amended C3 theorem. -/
theorem destroy_stage_collection_amended_witness :
    vmAcquired.instanceID ≠ "" ∧
    Env.getComputeClient envDisassocFails = none ∧
    vmAcquired.floatingIP = some ⟨"1.2.3.4", "fip-1"⟩ ∧
    DestroyStageSpec envDisassocFails vmAcquired ⟨"1.2.3.4", "fip-1"⟩ :=
  ⟨by decide, rfl, rfl,
   destroy_stage_collection_amended envDisassocFails vmAcquired
     ⟨"1.2.3.4", "fip-1"⟩ (by decide) rfl rfl⟩

/-- C4: when flavor resolution fails, `Provision` returns the not-found
flavor error, mutates nothing, and the trace holds only the failed flavor
resolution — in particular no instance-create call is issued. -/
theorem provision_flavor_notfound_no_create (env : Env) (vm : VM) (e : String)
    (hc : env.getComputeClient = none)
    (hf : env.resolveFlavor vm.flavorName = .error e) :
    Provision env vm = (vm, some errNoFlavor, [.resolveFlavor vm.flavorName]) ∧
    Call.createServer ∉ (Provision env vm).2.2 := by
  have h1 : Provision env vm = (vm, some errNoFlavor, [.resolveFlavor vm.flavorName]) := by
    simp [Provision, hc, hf]
  refine ⟨h1, ?_⟩
  rw [h1]
  simp

/-- Witness for the C4 theorem with a failing flavor lookup. -/
theorem provision_flavor_notfound_no_create_witness :
    Env.getComputeClient envNoFlavor = none ∧
    Env.resolveFlavor envNoFlavor "m1.small" = .error "flavor lookup failed" ∧
    (Provision envNoFlavor vmConfigured =
       (vmConfigured, some errNoFlavor, [.resolveFlavor "m1.small"]) ∧
     Call.createServer ∉ (Provision envNoFlavor vmConfigured).2.2) :=
  ⟨rfl, rfl,
   provision_flavor_notfound_no_create envNoFlavor vmConfigured
     "flavor lookup failed" rfl rfl⟩

/-- C7 counterexample: `Halt` on a shut-off instance returns the
not-active error and issues no stop call, but its trace is NOT empty — the
precondition check itself issues a provider state query, refuting "no
provider call at all is made". -/
theorem halt_precondition_queries_provider_cex :
    (Halt envShutOff { instanceID := "abc-123" }).1 =
      some "the VM is not active, so cannot be halted" ∧
    (Halt envShutOff { instanceID := "abc-123" }).2 = [Call.queryServer] ∧
    (Halt envShutOff { instanceID := "abc-123" }).2 ≠ [] := by
  decide

/-- C7 amended: when the state precondition fails (the queried state is not
the running state), `Halt` returns the not-active error and its trace is
exactly one provider state query — no stop call is ever issued. -/
theorem halt_not_running_no_stop_call (env : Env) (vm : VM) (st : String)
    (h : vm.instanceID ≠ "") (hc : env.getComputeClient = none)
    (hs : GetState env = .ok st) (hr : st ≠ VMRunning) :
    Halt env vm =
      (some "the VM is not active, so cannot be halted", [Call.queryServer]) := by
  simp [Halt, h, hc, hs, hr]

/-- Witness for the amended C7 theorem on a shut-off instance. -/
theorem halt_not_running_no_stop_call_witness :
    VM.instanceID { instanceID := "abc-123" } ≠ "" ∧
    Env.getComputeClient envShutOff = none ∧
    GetState envShutOff = .ok VMHalted ∧ VMHalted ≠ VMRunning ∧
    Halt envShutOff { instanceID := "abc-123" } =
      (some "the VM is not active, so cannot be halted", [Call.queryServer]) :=
  ⟨by decide, rfl, rfl, by decide,
   halt_not_running_no_stop_call envShutOff { instanceID := "abc-123" } VMHalted
     (by decide) rfl rfl (by decide)⟩

/-- C9: serialization panics whenever the floating-IP record is absent: the
alias serializes the field to JSON null, and the unchecked type assertion
of that entry to a map fails at runtime instead of returning an error or
omitting the field. -/
theorem marshalJSON_nil_floating_ip_panics (vm : VM)
    (h : vm.floatingIP = none) :
    MarshalJSON vm = .panic := by
  simp [MarshalJSON, marshalAlias, jGet, h, List.find?]

/-- Witness for the C9 theorem at the empty descriptor. -/
theorem marshalJSON_nil_floating_ip_panics_witness :
    VM.floatingIP {} = none ∧ MarshalJSON {} = .panic :=
  ⟨rfl, marshalJSON_nil_floating_ip_panics {} rfl⟩

/-- C10: `GetIPs` returns a nil slice and a nil error both when the server
query yields no server without an error and when the network client is
absent without an error — indistinguishable from a degenerate success. -/
theorem getIPs_nil_nil_on_absent_server_or_client (env : Env) (vm : VM) :
    (env.getServer = (none, none) → GetIPs env vm = .ret none none) ∧
    (∀ s, env.getServer = (some s, none) → env.getNetworkClient = (none, none) →
      GetIPs env vm = .ret none none) := by
  constructor
  · intro h
    simp [GetIPs, h]
  · intro s h1 h2
    simp [GetIPs, h1, h2]

/-- Witness for the C10 theorem with a nil server and nil error. -/
theorem getIPs_nil_nil_on_absent_server_or_client_witness :
    Env.getServer envNilServer = (none, none) ∧
    GetIPs envNilServer {} = .ret none none :=
  ⟨rfl, (getIPs_nil_nil_on_absent_server_or_client envNilServer {}).1 rfl⟩

/-- Conjunction proved for C1: on a run that created the instance and then
failed the running-state wait with cause `e`, `Provision` equals the
composition with `Destroy` on the post-creation descriptor — the teardown's
descriptor mutation and trace are those of `Destroy`, and the returned
error is the cause alone when teardown succeeds, else the cause followed by
the teardown error (the cause is never hidden). -/
def ProvisionWaitFailSpec (env : Env) (vm vm1 : VM) (trI : List Call)
    (sid e : String) : Prop :=
  Provision env vm =
    ((Destroy env { vm1 with instanceID := sid }).1,
     some (match (Destroy env { vm1 with instanceID := sid }).2.1 with
           | none => e
           | some d => e ++ " " ++ d),
     (Call.resolveFlavor vm.flavorName :: trI ++
        [Call.createServer, Call.waitRunning])
       ++ (Destroy env { vm1 with instanceID := sid }).2.2)

/-- C1: whenever instance creation succeeds (identifier `sid` recorded) and
the wait for the running state then fails, `Provision` invokes `Destroy` as
teardown and returns the original cause, concatenated with the teardown
error when the teardown also fails. -/
theorem provision_wait_failure_invokes_teardown (env : Env) (vm vm1 : VM)
    (iid sid e : String) (trI : List Call)
    (hc : env.getComputeClient = none)
    (hf : ∃ fid, env.resolveFlavor vm.flavorName = .ok fid)
    (hi : resolveImage env vm = (.ok iid, vm1, trI))
    (hs : env.createServer = .ok sid)
    (hw : env.waitRunning = some e) :
    ProvisionWaitFailSpec env vm vm1 trI sid e := by
  obtain ⟨fid, hfv⟩ := hf
  simp [ProvisionWaitFailSpec, Provision, cleanup, hc, hfv, hi, hs, hw]

/-- Witness for the C1 theorem: wait fails, instance delete also fails. -/
theorem provision_wait_failure_invokes_teardown_witness :
    Env.getComputeClient envWaitAndDeleteFail = none ∧
    Env.resolveFlavor envWaitAndDeleteFail "m1.small" = .ok "flavor-1" ∧
    resolveImage envWaitAndDeleteFail vmConfigured = (.ok "img-1", vmConfigured, []) ∧
    Env.createServer envWaitAndDeleteFail = .ok "abc-123" ∧
    Env.waitRunning envWaitAndDeleteFail = some "wait boom" ∧
    ProvisionWaitFailSpec envWaitAndDeleteFail vmConfigured vmConfigured []
      "abc-123" "wait boom" :=
  ⟨rfl, rfl, rfl, rfl, rfl,
   provision_wait_failure_invokes_teardown envWaitAndDeleteFail vmConfigured
     vmConfigured "img-1" "abc-123" "wait boom" [] rfl ⟨"flavor-1", rfl⟩ rfl rfl rfl⟩

/-- Conjunction proved for C2: on a run that created instance `sid`,
reached running, allocated floating IP `fip` and then failed the
association with cause `e`, `Provision` first issues the delete of the
just-allocated floating IP, then runs `Destroy`; the returned error names
the association failure, the folded-in floating-IP delete outcome, and any
teardown failure; exactly one delete-instance call is issued over the whole
run; and the final descriptor's floating-IP record is still absent. -/
def ProvisionAssocFailSpec (env : Env) (vm vm1 : VM) (trI : List Call)
    (sid : String) (fip : FloatingIP) (e : String) : Prop :=
  Provision env vm =
    ((Destroy env { vm1 with instanceID := sid }).1,
     some (match (Destroy env { vm1 with instanceID := sid }).2.1 with
           | none =>
             "unable to associate a floating ip: " ++
               (e ++ " " ++ goErrStr (env.deleteFip fip.id))
           | some d =>
             ("unable to associate a floating ip: " ++
               (e ++ " " ++ goErrStr (env.deleteFip fip.id))) ++ " " ++ d),
     (Call.resolveFlavor vm.flavorName :: trI ++
        [Call.createServer, Call.waitRunning, Call.createFip vm1.floatingIPPool,
         Call.associateFip sid fip.ip, Call.deleteFip fip.id])
       ++ (Destroy env { vm1 with instanceID := sid }).2.2) ∧
  countDeleteServer sid (Provision env vm).2.2 = 1 ∧
  (Provision env vm).1.floatingIP = none

/-- C2: whenever the instance is created and running but floating-IP
association fails, `Provision` deletes the just-allocated floating IP, then
tears down via `Destroy`, reports the association failure together with the
delete and teardown outcomes, issues exactly one delete-instance call, and
never sets the descriptor's floating-IP record. -/
theorem provision_assoc_failure_deletes_fip_then_teardown
    (env : Env) (vm vm1 : VM) (iid sid e : String) (trI : List Call)
    (fip : FloatingIP)
    (hc : env.getComputeClient = none)
    (hf : ∃ fid, env.resolveFlavor vm.flavorName = .ok fid)
    (hi : resolveImage env vm = (.ok iid, vm1, trI))
    (hs : env.createServer = .ok sid) (hsid : sid ≠ "")
    (hw : env.waitRunning = none)
    (hp : vm1.floatingIPPool ≠ "")
    (hcf : env.createFip vm1.floatingIPPool = .ok fip)
    (ha : env.associateFip sid fip.ip = some e)
    (hfip : vm.floatingIP = none) :
    ProvisionAssocFailSpec env vm vm1 trI sid fip e := by
  obtain ⟨fid, hfv⟩ := hf
  have hfip1 : vm1.floatingIP = none := by
    have hpres := resolveImage_preserves_floatingIP env vm
    rw [hi] at hpres
    rw [hpres, hfip]
  have hProv : Provision env vm =
      ((Destroy env { vm1 with instanceID := sid }).1,
       some (match (Destroy env { vm1 with instanceID := sid }).2.1 with
             | none =>
               "unable to associate a floating ip: " ++
                 (e ++ " " ++ goErrStr (env.deleteFip fip.id))
             | some d =>
               ("unable to associate a floating ip: " ++
                 (e ++ " " ++ goErrStr (env.deleteFip fip.id))) ++ " " ++ d),
       (Call.resolveFlavor vm.flavorName :: trI ++
          [Call.createServer, Call.waitRunning, Call.createFip vm1.floatingIPPool,
           Call.associateFip sid fip.ip, Call.deleteFip fip.id])
         ++ (Destroy env { vm1 with instanceID := sid }).2.2) := by
    simp [Provision, cleanup, hc, hfv, hi, hs, hw, hp, hcf, ha]
  have hone : countDeleteServer sid (Destroy env { vm1 with instanceID := sid }).2.2 = 1 := by
    have := destroy_one_deleteServer env { vm1 with instanceID := sid }
      (by simpa using hsid) hc (by simpa using hfip1)
    simpa using this
  refine ⟨hProv, ?_, ?_⟩
  · rw [hProv]
    have h0 : countDeleteServer sid trI = 0 := by
      have := resolveImage_no_deleteServer env vm sid
      rw [hi] at this
      exact this
    simp [countDeleteServer_append, countDeleteServer, h0, hone]
  · rw [hProv]
    have hd1 := destroy_fst env { vm1 with instanceID := sid }
      (by simpa using hsid) hc
    rw [hd1]
    exact hfip1

/-- Witness for the C2 theorem: association fails, everything else is
healthy; the run deletes the allocated floating IP, then the instance. -/
theorem provision_assoc_failure_deletes_fip_then_teardown_witness :
    Env.getComputeClient envAssocFails = none ∧
    Env.resolveFlavor envAssocFails "m1.small" = .ok "flavor-1" ∧
    resolveImage envAssocFails vmConfigured = (.ok "img-1", vmConfigured, []) ∧
    Env.createServer envAssocFails = .ok "abc-123" ∧ "abc-123" ≠ "" ∧
    Env.waitRunning envAssocFails = none ∧
    vmConfigured.floatingIPPool ≠ "" ∧
    Env.createFip envAssocFails "pool-1" = .ok ⟨"1.2.3.4", "fip-1"⟩ ∧
    Env.associateFip envAssocFails "abc-123" "1.2.3.4" = some "assoc boom" ∧
    vmConfigured.floatingIP = none ∧
    ProvisionAssocFailSpec envAssocFails vmConfigured vmConfigured []
      "abc-123" ⟨"1.2.3.4", "fip-1"⟩ "assoc boom" :=
  ⟨rfl, rfl, rfl, rfl, by decide, rfl, by decide, rfl, rfl, rfl,
   provision_assoc_failure_deletes_fip_then_teardown envAssocFails vmConfigured
     vmConfigured "img-1" "abc-123" "assoc boom" [] ⟨"1.2.3.4", "fip-1"⟩
     rfl ⟨"flavor-1", rfl⟩ rfl rfl (by decide) rfl (by decide) rfl rfl rfl⟩

/-- Per-network address list the `GetIPs` loop processes: the addresses
stored under the looked-up network's name (empty when either lookup fails;
a successful loop run never consults those defaults). -/
def netAddrs (env : Env) (s : Server) (nid : String) : List Address :=
  match env.networkGet nid with
  | .error _ => []
  | .ok nw => (lookupAddrs s nw.name).getD []

/-- Lemma: after folding one address list, slot 0 either still holds its
initial value (when the list has no "floating" address) or holds the
parsed address of some "floating" entry. -/
theorem procAddrs_fst_cases (p : String → Option String) :
    ∀ (addrs : List Address) (acc : Option String × Option String),
      ((procAddrs p acc addrs).1 = acc.1 ∧ ∀ a ∈ addrs, a.ipType ≠ "floating") ∨
      (∃ a ∈ addrs, a.ipType = "floating" ∧ (procAddrs p acc addrs).1 = p a.addr) := by
  intro addrs
  induction addrs with
  | nil =>
    intro acc
    left
    exact ⟨rfl, by simp⟩
  | cons a t ih =>
    intro acc
    have hstep : procAddrs p acc (a :: t) = procAddrs p (procAddr p acc a) t := rfl
    by_cases hfl : a.ipType = "floating"
    · have hacc1 : (procAddr p acc a).1 = p a.addr := by
        simp [procAddr, hfl]
      rcases ih (procAddr p acc a) with ⟨h1, _⟩ | ⟨b, hb, hbf, hres⟩
      · exact .inr ⟨a, List.mem_cons_self a t, hfl, by rw [hstep, h1, hacc1]⟩
      · exact .inr ⟨b, List.mem_cons_of_mem a hb, hbf, by rw [hstep]; exact hres⟩
    · have hacc1 : (procAddr p acc a).1 = acc.1 := by
        by_cases hfx : a.ipType = "fixed" <;> simp [procAddr, hfl, hfx]
      rcases ih (procAddr p acc a) with ⟨h1, h2⟩ | ⟨b, hb, hbf, hres⟩
      · refine .inl ⟨by rw [hstep, h1, hacc1], ?_⟩
        intro x hx
        rcases List.mem_cons.mp hx with hx | hx
        · rw [hx]; exact hfl
        · exact h2 x hx
      · exact .inr ⟨b, List.mem_cons_of_mem a hb, hbf, by rw [hstep]; exact hres⟩

/-- Lemma: after folding one address list, slot 1 either still holds its
initial value (when the list has no "fixed" address) or holds the parsed
address of some "fixed" entry. -/
theorem procAddrs_snd_cases (p : String → Option String) :
    ∀ (addrs : List Address) (acc : Option String × Option String),
      ((procAddrs p acc addrs).2 = acc.2 ∧ ∀ a ∈ addrs, a.ipType ≠ "fixed") ∨
      (∃ a ∈ addrs, a.ipType = "fixed" ∧ (procAddrs p acc addrs).2 = p a.addr) := by
  intro addrs
  induction addrs with
  | nil =>
    intro acc
    left
    exact ⟨rfl, by simp⟩
  | cons a t ih =>
    intro acc
    have hstep : procAddrs p acc (a :: t) = procAddrs p (procAddr p acc a) t := rfl
    by_cases hfx : a.ipType = "fixed"
    · have hacc1 : (procAddr p acc a).2 = p a.addr := by
        simp [procAddr, hfx]
      rcases ih (procAddr p acc a) with ⟨h1, _⟩ | ⟨b, hb, hbf, hres⟩
      · exact .inr ⟨a, List.mem_cons_self a t, hfx, by rw [hstep, h1, hacc1]⟩
      · exact .inr ⟨b, List.mem_cons_of_mem a hb, hbf, by rw [hstep]; exact hres⟩
    · have hacc1 : (procAddr p acc a).2 = acc.2 := by
        by_cases hfl : a.ipType = "floating" <;> simp [procAddr, hfl, hfx]
      rcases ih (procAddr p acc a) with ⟨h1, h2⟩ | ⟨b, hb, hbf, hres⟩
      · refine .inl ⟨by rw [hstep, h1, hacc1], ?_⟩
        intro x hx
        rcases List.mem_cons.mp hx with hx | hx
        · rw [hx]; exact hfx
        · exact h2 x hx
      · exact .inr ⟨b, List.mem_cons_of_mem a hb, hbf, by rw [hstep]; exact hres⟩

/-- Lemma: a successful network loop leaves slot 0 at its initial value
when no processed address is flagged "floating", and otherwise returns a
"floating" address's parsed value. -/
theorem getIPsLoop_fst_cases (env : Env) (s : Server) :
    ∀ (nets : List String) (acc : Option String × Option String)
      (s0 s1 : Option String),
      getIPsLoop env s acc nets = .ok s0 s1 →
      (s0 = acc.1 ∧ ∀ nid ∈ nets, ∀ a ∈ netAddrs env s nid, a.ipType ≠ "floating") ∨
      (∃ nid ∈ nets, ∃ a ∈ netAddrs env s nid,
        a.ipType = "floating" ∧ s0 = env.parseIP a.addr) := by
  intro nets
  induction nets with
  | nil =>
    intro acc s0 s1 h
    simp only [getIPsLoop, LoopRes.ok.injEq] at h
    exact .inl ⟨h.1.symm, by simp⟩
  | cons nid rest ih =>
    intro acc s0 s1 h
    simp only [getIPsLoop] at h
    rcases hng : env.networkGet nid with e | nw
    · simp only [hng] at h
      cases h
    · simp only [hng] at h
      rcases hla : lookupAddrs s nw.name with _ | addrs
      · simp only [hla] at h
        cases h
      · simp only [hla] at h
        have hna : netAddrs env s nid = addrs := by
          simp [netAddrs, hng, hla]
        rcases ih (procAddrs env.parseIP acc addrs) s0 s1 h with
          ⟨h1, h2⟩ | ⟨m, hm, a, ha, haf, hres⟩
        · rcases procAddrs_fst_cases env.parseIP addrs acc with
            ⟨p1, p2⟩ | ⟨a, ha, haf, hres⟩
          · refine .inl ⟨h1.trans p1, ?_⟩
            intro n hn
            rcases List.mem_cons.mp hn with hn | hn
            · rw [hn, hna]; exact p2
            · exact h2 n hn
          · exact .inr ⟨nid, List.mem_cons_self nid rest, a, hna ▸ ha, haf,
              h1.trans hres⟩
        · exact .inr ⟨m, List.mem_cons_of_mem nid hm, a, ha, haf, hres⟩

/-- Lemma: the "fixed"-flag analogue of the slot-0 loop characterization. -/
theorem getIPsLoop_snd_cases (env : Env) (s : Server) :
    ∀ (nets : List String) (acc : Option String × Option String)
      (s0 s1 : Option String),
      getIPsLoop env s acc nets = .ok s0 s1 →
      (s1 = acc.2 ∧ ∀ nid ∈ nets, ∀ a ∈ netAddrs env s nid, a.ipType ≠ "fixed") ∨
      (∃ nid ∈ nets, ∃ a ∈ netAddrs env s nid,
        a.ipType = "fixed" ∧ s1 = env.parseIP a.addr) := by
  intro nets
  induction nets with
  | nil =>
    intro acc s0 s1 h
    simp only [getIPsLoop, LoopRes.ok.injEq] at h
    exact .inl ⟨h.2.symm, by simp⟩
  | cons nid rest ih =>
    intro acc s0 s1 h
    simp only [getIPsLoop] at h
    rcases hng : env.networkGet nid with e | nw
    · simp only [hng] at h
      cases h
    · simp only [hng] at h
      rcases hla : lookupAddrs s nw.name with _ | addrs
      · simp only [hla] at h
        cases h
      · simp only [hla] at h
        have hna : netAddrs env s nid = addrs := by
          simp [netAddrs, hng, hla]
        rcases ih (procAddrs env.parseIP acc addrs) s0 s1 h with
          ⟨h1, h2⟩ | ⟨m, hm, a, ha, haf, hres⟩
        · rcases procAddrs_snd_cases env.parseIP addrs acc with
            ⟨p1, p2⟩ | ⟨a, ha, haf, hres⟩
          · refine .inl ⟨h1.trans p1, ?_⟩
            intro n hn
            rcases List.mem_cons.mp hn with hn | hn
            · rw [hn, hna]; exact p2
            · exact h2 n hn
          · exact .inr ⟨nid, List.mem_cons_self nid rest, a, hna ▸ ha, haf,
              h1.trans hres⟩
        · exact .inr ⟨m, List.mem_cons_of_mem nid hm, a, ha, haf, hres⟩

/-- Lemma: with a successful server query and network client, `GetIPs` is
the network loop's outcome. -/
theorem GetIPs_eq_loop (env : Env) (vm : VM) (s : Server) (u : Unit)
    (hs : env.getServer = (some s, none))
    (hnc : env.getNetworkClient = (some u, none)) :
    GetIPs env vm =
      match getIPsLoop env s (none, none) vm.networks with
      | .panic => .panic
      | .fail e => .ret none (some e)
      | .ok s0 s1 => .ret (some [s0, s1]) none := by
  simp [GetIPs, hs, hnc]

/-- Conjunction proved for C8: a successful `GetIPs` run returns exactly
two positions, position 0 populated only from addresses flagged "floating"
and position 1 only from addresses flagged "fixed"; a position with no
matching address over all requested networks is the absent (nil) value. -/
def GetIPsSlotSpec (env : Env) (vm : VM) (s : Server)
    (ips : List (Option String)) : Prop :=
  ips.length = 2 ∧
  (∀ v, ips[0]? = some (some v) →
    ∃ nid ∈ vm.networks, ∃ a ∈ netAddrs env s nid,
      a.ipType = "floating" ∧ env.parseIP a.addr = some v) ∧
  (∀ v, ips[1]? = some (some v) →
    ∃ nid ∈ vm.networks, ∃ a ∈ netAddrs env s nid,
      a.ipType = "fixed" ∧ env.parseIP a.addr = some v) ∧
  ((∀ nid ∈ vm.networks, ∀ a ∈ netAddrs env s nid, a.ipType ≠ "floating") →
    ips[0]? = some none) ∧
  ((∀ nid ∈ vm.networks, ∀ a ∈ netAddrs env s nid, a.ipType ≠ "fixed") →
    ips[1]? = some none)

/-- C8: when the server and network lookups succeed and `GetIPs` returns a
slice, it has exactly two positions, filled only from "floating"
(position 0) and "fixed" (position 1) flagged addresses, absent when no
such address exists. -/
theorem getIPs_two_slots_typed (env : Env) (vm : VM) (s : Server)
    (ips : List (Option String))
    (hs : env.getServer = (some s, none))
    (h : GetIPs env vm = .ret (some ips) none) :
    GetIPsSlotSpec env vm s ips := by
  rcases hnc : env.getNetworkClient with ⟨oc, oe⟩
  rcases oc with _ | u
  · simp [GetIPs, hs, hnc] at h
  · rcases oe with _ | e
    · rw [GetIPs_eq_loop env vm s u hs hnc] at h
      rcases hloop : getIPsLoop env s (none, none) vm.networks with _ | e | ⟨s0, s1⟩ <;>
        rw [hloop] at h
      · cases h
      · cases h
      · simp only [IPsOutcome.ret.injEq, Option.some.injEq] at h
        obtain ⟨hips, -⟩ := h
        subst hips
        refine ⟨rfl, ?_, ?_, ?_, ?_⟩
        · intro v hv
          simp only [List.getElem?_cons_zero, Option.some.injEq] at hv
          rcases getIPsLoop_fst_cases env s vm.networks (none, none) s0 s1 hloop with
            ⟨h1, _⟩ | ⟨nid, hn, a, ha, haf, hres⟩
          · rw [h1] at hv; cases hv
          · exact ⟨nid, hn, a, ha, haf, hres.symm.trans hv⟩
        · intro v hv
          simp only [List.getElem?_cons_succ, List.getElem?_cons_zero,
            Option.some.injEq] at hv
          rcases getIPsLoop_snd_cases env s vm.networks (none, none) s0 s1 hloop with
            ⟨h1, _⟩ | ⟨nid, hn, a, ha, haf, hres⟩
          · rw [h1] at hv; cases hv
          · exact ⟨nid, hn, a, ha, haf, hres.symm.trans hv⟩
        · intro hall
          rcases getIPsLoop_fst_cases env s vm.networks (none, none) s0 s1 hloop with
            ⟨h1, _⟩ | ⟨nid, hn, a, ha, haf, -⟩
          · rw [h1]; rfl
          · exact absurd haf (hall nid hn a ha)
        · intro hall
          rcases getIPsLoop_snd_cases env s vm.networks (none, none) s0 s1 hloop with
            ⟨h1, _⟩ | ⟨nid, hn, a, ha, haf, -⟩
          · rw [h1]; rfl
          · exact absurd haf (hall nid hn a ha)
    · simp [GetIPs, hs, hnc] at h

/-- A server exposing one floating and one fixed address on one network. -/
def srvTwoAddrs : Server :=
  { id := "abc-123"
    status := "ACTIVE"
    addresses := [("net-1", [⟨"floating", "1.2.3.4"⟩, ⟨"fixed", "10.0.0.1"⟩])] }

/-- Environment whose server query returns `srvTwoAddrs`. -/
def envTwoAddrs : Env := { getServer := (some srvTwoAddrs, none) }

/-- Descriptor attached to a single network. -/
def vmOneNet : VM := { networks := ["n1"] }

/-- Witness for the C8 theorem with one floating and one fixed address. -/
theorem getIPs_two_slots_typed_witness :
    Env.getServer envTwoAddrs = (some srvTwoAddrs, none) ∧
    GetIPs envTwoAddrs vmOneNet =
      .ret (some [some "1.2.3.4", some "10.0.0.1"]) none ∧
    GetIPsSlotSpec envTwoAddrs vmOneNet srvTwoAddrs
      [some "1.2.3.4", some "10.0.0.1"] :=
  ⟨rfl, rfl,
   getIPs_two_slots_typed envTwoAddrs vmOneNet srvTwoAddrs
     [some "1.2.3.4", some "10.0.0.1"] rfl rfl⟩

end OS
